import Mathlib

/-!
Verification of the drone-pagerduty dispatcher (`plugin` package).

The development shallowly embeds the decision logic of `Exec` and its
helpers (`validateSeverity`, `triggerIncidentAction`,
`resolveIncidentAction`, `createChangeEvent`) from the current revision of
the plugin (the one whose `Exec` receives an injected `PagerDutyClient`).
The external PagerDuty client is a record of two functions; every call the
dispatcher makes is recorded in a trace, so theorems can speak about which
client operations were invoked and in which number.

Go `error` values are modelled as `String` (the `err.Error()` text), a
fallible Go call as `Except String`.  `encoding/json.Unmarshal` into
`map[string]interface{}` is modelled by `jsonUnmarshalObject`, a small
executable parser for flat JSON objects (string / unsigned-integer /
boolean / null values, no nested containers); this covers every
custom-details value exercised by the repository and its tests, and all
generic theorems depend only on whether parsing succeeds, not on the
parser internals.
-/

/-- A JSON value as produced by unmarshalling into `map[string]interface{}`,
restricted to the flat values the repository exercises. -/
inductive JValue where
  | str (s : String)
  | num (n : Nat)
  | bool (b : Bool)
  | null
deriving DecidableEq, Repr

/-- Skip JSON whitespace. -/
def skipWs : List Char → List Char
  | [] => []
  | c :: rest =>
    if c = ' ' ∨ c = '\t' ∨ c = '\n' ∨ c = '\r' then skipWs rest else c :: rest

/-- Parse the body of a JSON string literal (after the opening quote),
returning the decoded characters and the remainder after the closing
quote. -/
def parseStringBody : List Char → Option (List Char × List Char)
  | [] => none
  | c :: rest =>
    if c = '"' then some ([], rest)
    else if c = '\\' then
      match rest with
      | [] => none
      | e :: rest2 =>
        match parseStringBody rest2 with
        | none => none
        | some (s, r) =>
          let d : Char :=
            if e = 'n' then '\n'
            else if e = 't' then '\t'
            else if e = 'r' then '\r'
            else e
          some (d :: s, r)
    else
      match parseStringBody rest with
      | none => none
      | some (s, r) => some (c :: s, r)

/-- Take a maximal run of decimal digits. -/
def takeDigits : List Char → List Char × List Char
  | [] => ([], [])
  | c :: rest =>
    if c.isDigit then
      let p := takeDigits rest
      (c :: p.1, p.2)
    else ([], c :: rest)

/-- Decimal digits to a natural number. -/
def digitsToNat (l : List Char) : Nat :=
  l.foldl (fun acc c => 10 * acc + (c.toNat - 48)) 0

/-- Parse one flat JSON value. -/
def parseValue : List Char → Option (JValue × List Char)
  | '"' :: rest =>
    match parseStringBody rest with
    | none => none
    | some (s, r) => some (JValue.str (String.mk s), r)
  | 't' :: 'r' :: 'u' :: 'e' :: r => some (JValue.bool true, r)
  | 'f' :: 'a' :: 'l' :: 's' :: 'e' :: r => some (JValue.bool false, r)
  | 'n' :: 'u' :: 'l' :: 'l' :: r => some (JValue.null, r)
  | c :: rest =>
    if c.isDigit then
      let p := takeDigits (c :: rest)
      some (JValue.num (digitsToNat p.1), p.2)
    else none
  | [] => none

/-- Parse the members of a JSON object, the opening brace already
consumed; `fuel` bounds the recursion by the input length. -/
def parseMembers : Nat → List Char → Option (List (String × JValue) × List Char)
  | 0, _ => none
  | _, [] => none
  | fuel + 1, c :: rest =>
    if c = '\x7d' then some ([], rest)
    else if c = '"' then
      match parseStringBody rest with
      | none => none
      | some (key, r1) =>
        match skipWs r1 with
        | ':' :: r2 =>
          match parseValue (skipWs r2) with
          | none => none
          | some (v, r3) =>
            match skipWs r3 with
            | ',' :: r4 =>
              match parseMembers fuel (skipWs r4) with
              | none => none
              | some (m, r5) => some ((String.mk key, v) :: m, r5)
            | '\x7d' :: r4 => some ([(String.mk key, v)], r4)
            | _ => none
        | _ => none
    else none

/-- Model of `json.Unmarshal([]byte(s), &map[string]interface{})` for flat
objects: `some mapping` on success, `none` on a parse error. -/
def jsonUnmarshalObject (s : String) : Option (List (String × JValue)) :=
  match skipWs s.data with
  | [] => none
  | c :: rest =>
    if c = '\x7b' then
      match parseMembers (s.length + 1) (skipWs rest) with
      | none => none
      | some (m, r) => if skipWs r = [] then some m else none
    else none

/-- `Args` of the plugin package (envconfig-tagged fields; `Level` is the
log level, unused by the decision logic). -/
structure Args where
  Level : String
  RoutingKey : String
  IncidentSummary : String
  IncidentSource : String
  IncidentSeverity : String
  DedupKey : String
  CreateChangeEvent : Bool
  ResolveIncident : Bool
  JobStatus : String
  CustomDetailsStr : String
  CustomDetails : List (String × JValue)
deriving DecidableEq, Repr

/-- `pagerduty.V2Payload`. -/
structure V2Payload where
  Summary : String
  Source : String
  Severity : String
deriving DecidableEq, Repr

/-- `pagerduty.V2Event` (the fields the plugin sets; `Payload` is a Go
pointer, hence `Option`). -/
structure V2Event where
  RoutingKey : String
  Action : String
  Payload : Option V2Payload
  DedupKey : String
deriving DecidableEq, Repr

/-- `pagerduty.ChangeEventPayload`. -/
structure ChangeEventPayload where
  Summary : String
  Source : String
  CustomDetails : List (String × JValue)
deriving DecidableEq, Repr

/-- `pagerduty.ChangeEvent`. -/
structure ChangeEvent where
  RoutingKey : String
  Payload : ChangeEventPayload
deriving DecidableEq, Repr

/-- One outbound client call, as recorded in the dispatch trace. -/
inductive ClientCall where
  | manage (e : V2Event)
  | change (e : ChangeEvent)
deriving DecidableEq, Repr

/-- The `PagerDutyClient` interface: each operation either succeeds (the
response body is irrelevant to the dispatcher) or fails with an error
text. -/
structure PagerDutyClient where
  ManageEventWithContext : V2Event → Except String Unit
  CreateChangeEventWithContext : ChangeEvent → Except String Unit

/-- Result of a dispatch: the returned `error` (as `Except`) together with
the list of client calls made, in order. -/
abbrev ExecResult := Except String Unit × List ClientCall

def SeverityCritical : String := "critical"
def SeverityError : String := "error"
def SeverityWarning : String := "warning"
def SeverityInfo : String := "info"

/-- `validateSeverity`: `none` models a nil error. -/
def validateSeverity (severity : String) : Option String :=
  if severity = SeverityCritical ∨ severity = SeverityError ∨
     severity = SeverityWarning ∨ severity = SeverityInfo then
    none
  else
    some "invalid severity value; allowed values are \x27critical\x27, \x27error\x27, \x27warning\x27, \x27info\x27"

/-- The trigger `V2Event` built by `triggerIncidentAction`. -/
def triggerEventOf (args : Args) : V2Event :=
  { RoutingKey := args.RoutingKey
    Action := "trigger"
    Payload := some
      { Summary := args.IncidentSummary
        Source := args.IncidentSource
        Severity := args.IncidentSeverity }
    DedupKey := args.DedupKey }

/-- The resolve `V2Event` built by `resolveIncidentAction` (no payload). -/
def resolveEventOf (args : Args) : V2Event :=
  { RoutingKey := args.RoutingKey
    Action := "resolve"
    Payload := none
    DedupKey := args.DedupKey }

/-- `triggerIncidentAction`: one `ManageEventWithContext` call, a failure
wrapped as "failed to trigger incident: " plus the client error text. -/
def triggerIncidentAction (client : PagerDutyClient) (args : Args) : ExecResult :=
  let event := triggerEventOf args
  match client.ManageEventWithContext event with
  | .error e => (.error ("failed to trigger incident: " ++ e), [ClientCall.manage event])
  | .ok _ => (.ok (), [ClientCall.manage event])

/-- `resolveIncidentAction`: one `ManageEventWithContext` call, a failure
wrapped as "failed to resolve incident: " plus the client error text. -/
def resolveIncidentAction (client : PagerDutyClient) (args : Args) : ExecResult :=
  let event := resolveEventOf args
  match client.ManageEventWithContext event with
  | .error e => (.error ("failed to resolve incident: " ++ e), [ClientCall.manage event])
  | .ok _ => (.ok (), [ClientCall.manage event])

/-- The `ChangeEvent` built by `createChangeEvent` from the (possibly
updated) args. -/
def changeEventOf (args : Args) : ChangeEvent :=
  { RoutingKey := args.RoutingKey
    Payload :=
      { Summary := args.IncidentSummary
        Source := args.IncidentSource
        CustomDetails := args.CustomDetails } }

/-- The custom-details step at the head of `createChangeEvent`: when the
custom-details string is non-empty it is unmarshalled into the
`CustomDetails` field; a parse failure is the wrapped unmarshal error. -/
def parsedChangeArgs (args : Args) : Except String Args :=
  if args.CustomDetailsStr = "" then .ok args
  else
    match jsonUnmarshalObject args.CustomDetailsStr with
    | none => .error "failed to parse custom details JSON: invalid JSON input"
    | some m => .ok { args with CustomDetails := m }

/-- `createChangeEvent`: the custom-details step (a parse failure returns
before any client call); then one `CreateChangeEventWithContext` call,
a failure wrapped as "failed to create change event: " plus the client
error text. -/
def createChangeEvent (client : PagerDutyClient) (args : Args) : ExecResult :=
  match parsedChangeArgs args with
  | .error e => (.error e, [])
  | .ok a =>
    match client.CreateChangeEventWithContext (changeEventOf a) with
    | .error e => (.error ("failed to create change event: " ++ e), [ClientCall.change (changeEventOf a)])
    | .ok _ => (.ok (), [ClientCall.change (changeEventOf a)])

/-- Outcome of the `switch args.JobStatus` statement in `Exec`: whether
execution proceeds to a client call (the `default` case returns nil
directly), the derived resolve decision, and the rewritten summary. -/
structure StatusDecision where
  proceed : Bool
  resolveIncident : Bool
  summary : String
deriving DecidableEq, Repr

/-- The `switch args.JobStatus` of `Exec`, literally: the matched strings
are upper-case, `SUCCESS` and `RUNNING` force the resolve decision to
true (`args.ResolveIncident || true`), and the `default` case computes an
unknown-status summary and stops without any client call. -/
def decideJobStatus (jobStatus : String) (resolveFlag : Bool) (summary : String) : StatusDecision :=
  if jobStatus = "SUCCESS" then
    ⟨true, resolveFlag || true, "Job succeeded: " ++ summary⟩
  else if jobStatus = "FAILED" then
    ⟨true, resolveFlag, "Job failed: " ++ summary⟩
  else if jobStatus = "RUNNING" then
    ⟨true, resolveFlag || true, "Job is unstable: " ++ summary⟩
  else if jobStatus = "ABORTED" then
    ⟨true, resolveFlag, "Job was aborted: " ++ summary⟩
  else if jobStatus = "EXPIRED" then
    ⟨true, resolveFlag, "Job was aborted: " ++ summary⟩
  else
    ⟨false, false, "Job status unknown: " ++ summary⟩

/-- The change-event branch of `Exec` (its wrapping of a
`createChangeEvent` failure). -/
def changeBranch (client : PagerDutyClient) (args : Args) : ExecResult :=
  match createChangeEvent client args with
  | (.error e, calls) => (.error ("failed to create change event: " ++ e), calls)
  | (.ok _, calls) => (.ok (), calls)

/-- The switch outcome for an argument record (the local variables
`resolveIncident` and `summary` of `Exec`). -/
def statusDecisionOf (args : Args) : StatusDecision :=
  decideJobStatus args.JobStatus args.ResolveIncident args.IncidentSummary

/-- The argument record after `args.IncidentSummary = summary`: the only
field the dispatch overwrites before calling the client. -/
def dispatchedArgs (args : Args) : Args :=
  { args with IncidentSummary := (statusDecisionOf args).summary }

/-- The incident branch of `Exec` (job-status switch, then trigger or
resolve, each failure wrapped once more by `Exec` itself; the `default`
case of the switch returns nil with no client call). -/
def incidentBranch (client : PagerDutyClient) (args : Args) : ExecResult :=
  if (statusDecisionOf args).proceed = false then (.ok (), [])
  else if (statusDecisionOf args).resolveIncident then
    match resolveIncidentAction client (dispatchedArgs args) with
    | (.error e, calls) => (.error ("failed to resolve incident: " ++ e), calls)
    | (.ok _, calls) => (.ok (), calls)
  else
    match triggerIncidentAction client (dispatchedArgs args) with
    | (.error e, calls) => (.error ("failed to trigger incident: " ++ e), calls)
    | (.ok _, calls) => (.ok (), calls)

/-- `Exec`: validation in source order, then the change-event or incident
branch. -/
def Exec (client : PagerDutyClient) (args : Args) : ExecResult :=
  if args.RoutingKey = "" then
    (.error "missing required parameter: routingKey", [])
  else if args.CreateChangeEvent = false ∧ args.DedupKey = "" then
    (.error "missing required parameter: dedupKey when not creating a change event", [])
  else if args.CreateChangeEvent = false ∧ args.JobStatus = "" then
    (.error "missing required parameter: jobStatus when not creating a change event", [])
  else if args.CreateChangeEvent = false ∧ args.IncidentSummary = "" then
    (.error "missing required parameter: incidentSummary", [])
  else if args.CreateChangeEvent = false ∧ args.IncidentSource = "" then
    (.error "missing required parameter: incidentSource", [])
  else
    match (if args.CreateChangeEvent = false then validateSeverity args.IncidentSeverity else none) with
    | some e => (.error e, [])
    | none =>
      if args.CreateChangeEvent then changeBranch client args
      else incidentBranch client args

/-- A client whose operations always succeed (test double). -/
def okClient : PagerDutyClient :=
  { ManageEventWithContext := fun _ => .ok ()
    CreateChangeEventWithContext := fun _ => .ok () }

/-- A client whose incident operation fails with `e` (test double). -/
def failManageClient (e : String) : PagerDutyClient :=
  { ManageEventWithContext := fun _ => .error e
    CreateChangeEventWithContext := fun _ => .ok () }

/-- A client whose change-event operation fails with `e` (test double). -/
def failChangeClient (e : String) : PagerDutyClient :=
  { ManageEventWithContext := fun _ => .ok ()
    CreateChangeEventWithContext := fun _ => .error e }

/-- An `Args` record with every field zero-valued, as a Go `Args{}`. -/
def emptyArgs : Args :=
  { Level := ""
    RoutingKey := ""
    IncidentSummary := ""
    IncidentSource := ""
    IncidentSeverity := ""
    DedupKey := ""
    CreateChangeEvent := false
    ResolveIncident := false
    JobStatus := ""
    CustomDetailsStr := ""
    CustomDetails := [] }

/-- The input of spec test 8: incident mode, job status the lower-case
string "failed". -/
def specTest8Args : Args :=
  { emptyArgs with
    RoutingKey := "K"
    IncidentSummary := "S"
    IncidentSource := "Src"
    IncidentSeverity := "critical"
    DedupKey := "D"
    JobStatus := "failed" }

/-- The spec test 8 input with the job status in the upper case the
switch actually matches. -/
def upperFailedArgs : Args := { specTest8Args with JobStatus := "FAILED" }

/-- A fully valid incident-mode input on the resolve path. -/
def upperSuccessArgs : Args := { specTest8Args with JobStatus := "SUCCESS" }

/-- A change-event input whose incident-specific fields are all empty. -/
def changeModeEmptyArgs : Args :=
  { emptyArgs with RoutingKey := "rk", CreateChangeEvent := true }

/-- The invalid-custom-details input of the repository test suite. -/
def invalidDetailsArgs : Args :=
  { emptyArgs with
    RoutingKey := "testRoutingKey"
    IncidentSummary := "Test change event summary"
    IncidentSource := "Test source"
    CreateChangeEvent := true
    CustomDetailsStr := "invalid-json" }

/-- The round-trip input: change-event mode with the custom-details JSON
of spec test 4. -/
def roundTripArgs : Args :=
  { emptyArgs with
    RoutingKey := "testRoutingKey"
    IncidentSummary := "Test change event summary"
    IncidentSource := "Test source"
    CreateChangeEvent := true
    CustomDetailsStr := "\x7b\"key1\":\"value1\"\x7d" }

/-- Incident-mode input, job status FAILED, supplied severity info. -/
def sevInfoArgs : Args := { upperFailedArgs with IncidentSeverity := "info" }

/-- Incident-mode input, job status FAILED, supplied severity warning. -/
def sevWarningArgs : Args := { upperFailedArgs with IncidentSeverity := "warning" }

/-- Validation-chain input: routing key only. -/
def valArgs1 : Args := { emptyArgs with RoutingKey := "rk" }

/-- Validation-chain input: routing and dedup keys. -/
def valArgs2 : Args := { valArgs1 with DedupKey := "dk" }

/-- Validation-chain input: routing key, dedup key, job status. -/
def valArgs3 : Args := { valArgs2 with JobStatus := "FAILED" }

/-- Validation-chain input: all but source and severity. -/
def valArgs4 : Args := { valArgs3 with IncidentSummary := "sum" }

/-- Validation-chain input: all but severity (left empty, invalid). -/
def valArgs5 : Args := { valArgs4 with IncidentSource := "src" }

/-- When every validation passes in incident mode, `Exec` runs the
incident branch. -/
theorem exec_incident_mode (c : PagerDutyClient) (args : Args)
    (hRK : args.RoutingKey ≠ "") (hCC : args.CreateChangeEvent = false)
    (hDK : args.DedupKey ≠ "") (hJS : args.JobStatus ≠ "")
    (hSum : args.IncidentSummary ≠ "") (hSrc : args.IncidentSource ≠ "")
    (hSev : validateSeverity args.IncidentSeverity = none) :
    Exec c args = incidentBranch c args := by
  simp [Exec, hRK, hCC, hDK, hJS, hSum, hSrc, hSev]

/-- With the create-change-event flag set and a non-empty routing key,
`Exec` runs the change branch: no incident-specific validation applies. -/
theorem exec_change_mode (c : PagerDutyClient) (args : Args)
    (hCC : args.CreateChangeEvent = true) (hRK : args.RoutingKey ≠ "") :
    Exec c args = changeBranch c args := by
  simp [Exec, hRK, hCC]

/-- The change branch reads none of the incident-only fields: job status,
dedup key, severity and the resolve flag do not affect it. -/
theorem change_branch_frame (c : PagerDutyClient) (args : Args)
    (js dk sev : String) (r : Bool) :
    changeBranch c { args with JobStatus := js, DedupKey := dk,
                               IncidentSeverity := sev, ResolveIncident := r }
      = changeBranch c args := by
  unfold changeBranch createChangeEvent parsedChangeArgs changeEventOf
  by_cases hs : args.CustomDetailsStr = ""
  · simp [hs]
  · rcases hj : jsonUnmarshalObject args.CustomDetailsStr with _ | m <;> simp [hs, hj]

/-- Every call `createChangeEvent` records is a change-event call. -/
theorem create_change_event_calls_change (c : PagerDutyClient) (args : Args)
    (r : Except String Unit) (calls : List ClientCall)
    (h : createChangeEvent c args = (r, calls)) :
    ∀ x ∈ calls, ∃ e, x = ClientCall.change e := by
  unfold createChangeEvent at h
  rcases hp : parsedChangeArgs args with e | a <;> simp [hp] at h
  · rcases h with ⟨-, h2⟩
    subst h2
    intro x hx
    cases hx
  · rcases hc : c.CreateChangeEventWithContext (changeEventOf a) with e2 | u <;>
      simp [hc] at h
    all_goals
      rcases h with ⟨-, h2⟩
      subst h2
      intro x hx
      simp at hx
      exact ⟨changeEventOf a, hx⟩

/-- C1: the claim maps the lower-case job statuses of the spec table
(success, failed, running, aborted, expired) to resolve/trigger actions
and summary rewrites.  The switch in `Exec` matches only the upper-case
strings, so every lower-case status of the table falls into the `default`
case: the summary becomes "Job status unknown: ", and no client call is
made even with the resolve flag set (under which the table mandates a
resolve call for all five).  This evaluates the code at those failing
inputs. -/
theorem lowercase_status_rows_fall_to_unknown :
    decideJobStatus "success" true "S" = ⟨false, false, "Job status unknown: S"⟩ ∧
    decideJobStatus "failed" true "S" = ⟨false, false, "Job status unknown: S"⟩ ∧
    decideJobStatus "running" true "S" = ⟨false, false, "Job status unknown: S"⟩ ∧
    decideJobStatus "aborted" true "S" = ⟨false, false, "Job status unknown: S"⟩ ∧
    decideJobStatus "expired" true "S" = ⟨false, false, "Job status unknown: S"⟩ ∧
    Exec okClient { specTest8Args with JobStatus := "success", ResolveIncident := true } = (.ok (), []) ∧
    Exec okClient { specTest8Args with JobStatus := "failed", ResolveIncident := true } = (.ok (), []) ∧
    Exec okClient { specTest8Args with JobStatus := "running", ResolveIncident := true } = (.ok (), []) ∧
    Exec okClient { specTest8Args with JobStatus := "aborted", ResolveIncident := true } = (.ok (), []) ∧
    Exec okClient { specTest8Args with JobStatus := "expired", ResolveIncident := true } = (.ok (), []) :=
  ⟨rfl, rfl, rfl, rfl, rfl, rfl, rfl, rfl, rfl, rfl⟩

/-- C2: on the spec test 8 input (routingKey "K", summary "S", source
"Src", severity "critical", dedupKey "D", jobStatus "failed", resolve
false) the claim demands one trigger call with summary "Job failed: S".
Evaluating the code there: no client call is made at all and the result
is success, because the switch matches "FAILED", not "failed" — the exact
scenario of the repository test `TestExec`, which therefore fails.  With
the upper-case status, the claimed event is produced. -/
theorem spec_test8_makes_no_client_call :
    Exec okClient specTest8Args = (.ok (), []) ∧
    Exec (failManageClient "API call failed") specTest8Args = (.ok (), []) ∧
    Exec okClient upperFailedArgs =
      (.ok (), [ClientCall.manage
        { RoutingKey := "K", Action := "trigger",
          Payload := some { Summary := "Job failed: S", Source := "Src", Severity := "critical" },
          DedupKey := "D" }]) :=
  ⟨rfl, rfl, rfl⟩

/-- C3: validation fails fast, before any client call, with the first
violated rule: an empty routing key wins over everything; otherwise, in
incident mode, dedup key, job status, incident summary, incident source
and severity membership in the critical/error/warning/info set are
checked in that order, and the first violated check determines the
error.  Every conclusion carries an empty call trace. -/
theorem validation_order_first_violation_wins :
    (∀ (c : PagerDutyClient) (args : Args), args.RoutingKey = "" →
      Exec c args = (.error "missing required parameter: routingKey", [])) ∧
    (∀ (c : PagerDutyClient) (args : Args), args.RoutingKey ≠ "" →
      args.CreateChangeEvent = false → args.DedupKey = "" →
      Exec c args = (.error "missing required parameter: dedupKey when not creating a change event", [])) ∧
    (∀ (c : PagerDutyClient) (args : Args), args.RoutingKey ≠ "" →
      args.CreateChangeEvent = false → args.DedupKey ≠ "" → args.JobStatus = "" →
      Exec c args = (.error "missing required parameter: jobStatus when not creating a change event", [])) ∧
    (∀ (c : PagerDutyClient) (args : Args), args.RoutingKey ≠ "" →
      args.CreateChangeEvent = false → args.DedupKey ≠ "" → args.JobStatus ≠ "" →
      args.IncidentSummary = "" →
      Exec c args = (.error "missing required parameter: incidentSummary", [])) ∧
    (∀ (c : PagerDutyClient) (args : Args), args.RoutingKey ≠ "" →
      args.CreateChangeEvent = false → args.DedupKey ≠ "" → args.JobStatus ≠ "" →
      args.IncidentSummary ≠ "" → args.IncidentSource = "" →
      Exec c args = (.error "missing required parameter: incidentSource", [])) ∧
    (∀ (c : PagerDutyClient) (args : Args) (e : String), args.RoutingKey ≠ "" →
      args.CreateChangeEvent = false → args.DedupKey ≠ "" → args.JobStatus ≠ "" →
      args.IncidentSummary ≠ "" → args.IncidentSource ≠ "" →
      validateSeverity args.IncidentSeverity = some e →
      Exec c args = (.error e, [])) ∧
    (∀ sev : String, validateSeverity sev = none ↔
      (sev = "critical" ∨ sev = "error" ∨ sev = "warning" ∨ sev = "info")) := by
  refine ⟨?_, ?_, ?_, ?_, ?_, ?_, ?_⟩
  · intro c args h
    simp [Exec, h]
  · intro c args hRK hCC hDK
    simp [Exec, hRK, hCC, hDK]
  · intro c args hRK hCC hDK hJS
    simp [Exec, hRK, hCC, hDK, hJS]
  · intro c args hRK hCC hDK hJS hSum
    simp [Exec, hRK, hCC, hDK, hJS, hSum]
  · intro c args hRK hCC hDK hJS hSum hSrc
    simp [Exec, hRK, hCC, hDK, hJS, hSum, hSrc]
  · intro c args e hRK hCC hDK hJS hSum hSrc hSev
    simp [Exec, hRK, hCC, hDK, hJS, hSum, hSrc, hSev]
  · intro sev
    simp only [validateSeverity, SeverityCritical, SeverityError, SeverityWarning, SeverityInfo]
    split_ifs with h
    · exact iff_of_true rfl h
    · exact iff_of_false (by simp) h

/-- Witness for C3 at concrete inputs, one per validation step. -/
theorem validation_order_witness :
    Exec okClient emptyArgs = (.error "missing required parameter: routingKey", []) ∧
    Exec okClient valArgs1 =
      (.error "missing required parameter: dedupKey when not creating a change event", []) ∧
    Exec okClient valArgs2 =
      (.error "missing required parameter: jobStatus when not creating a change event", []) ∧
    Exec okClient valArgs3 =
      (.error "missing required parameter: incidentSummary", []) ∧
    Exec okClient valArgs4 =
      (.error "missing required parameter: incidentSource", []) ∧
    Exec okClient valArgs5 =
      (.error "invalid severity value; allowed values are \x27critical\x27, \x27error\x27, \x27warning\x27, \x27info\x27", []) ∧
    (validateSeverity "critical" = none ↔
      ("critical" = "critical" ∨ "critical" = "error" ∨ "critical" = "warning" ∨ "critical" = "info")) :=
  ⟨validation_order_first_violation_wins.1 okClient emptyArgs rfl,
   validation_order_first_violation_wins.2.1 okClient _ (by decide) rfl rfl,
   validation_order_first_violation_wins.2.2.1 okClient _ (by decide) rfl (by decide) rfl,
   validation_order_first_violation_wins.2.2.2.1 okClient _ (by decide) rfl (by decide) (by decide) rfl,
   validation_order_first_violation_wins.2.2.2.2.1 okClient _ (by decide) rfl (by decide) (by decide) (by decide) rfl,
   validation_order_first_violation_wins.2.2.2.2.2.1 okClient _ _ (by decide) rfl (by decide) (by decide) (by decide) (by decide) rfl,
   validation_order_first_violation_wins.2.2.2.2.2.2 "critical"⟩

/-- C4: with the create-change-event flag set and a non-empty routing
key, none of the incident-specific validations (dedup key, job status,
summary, source, severity) can fail: for every argument record —
including one with all those fields empty or invalid — execution
proceeds to the custom-details parse/send step (`changeBranch`). -/
theorem change_mode_skips_incident_validation (c : PagerDutyClient) (args : Args)
    (hCC : args.CreateChangeEvent = true) (hRK : args.RoutingKey ≠ "") :
    Exec c args = changeBranch c args :=
  exec_change_mode c args hCC hRK

/-- Witness for C4: a change-event input whose incident-specific fields
are all empty (so each incident check would fail) still reaches the
parse/send step. -/
theorem change_mode_skips_incident_validation_witness :
    Exec okClient changeModeEmptyArgs = changeBranch okClient changeModeEmptyArgs :=
  change_mode_skips_incident_validation okClient changeModeEmptyArgs rfl (by decide)

/-- C5: in change-event mode, a non-empty custom-details string that does
not unmarshal into a key-to-value mapping makes `Exec` return the wrapped
custom-details parse error, with an empty call trace: neither client
operation is invoked. -/
theorem bad_custom_details_no_client_call (c : PagerDutyClient) (args : Args)
    (hCC : args.CreateChangeEvent = true) (hRK : args.RoutingKey ≠ "")
    (hS : args.CustomDetailsStr ≠ "")
    (hJ : jsonUnmarshalObject args.CustomDetailsStr = none) :
    Exec c args =
      (.error "failed to create change event: failed to parse custom details JSON: invalid JSON input", []) := by
  rw [exec_change_mode c args hCC hRK]
  simp [changeBranch, createChangeEvent, parsedChangeArgs, hS, hJ]

/-- Witness for C5: the repository test input with custom details
"invalid-json". -/
theorem bad_custom_details_witness :
    Exec okClient invalidDetailsArgs =
      (.error "failed to create change event: failed to parse custom details JSON: invalid JSON input", []) :=
  bad_custom_details_no_client_call okClient invalidDetailsArgs rfl (by decide) (by decide) rfl

/-- C6: in change-event mode, once `createChangeEvent` succeeds, `Exec`
returns success with exactly the calls of that step — all of them
change-event calls, never an incident trigger or resolve — and the whole
outcome is unchanged under every value of the job status and the resolve
flag. -/
theorem change_event_success_returns_immediately (c : PagerDutyClient) (args : Args)
    (calls : List ClientCall)
    (hCC : args.CreateChangeEvent = true) (hRK : args.RoutingKey ≠ "")
    (hok : createChangeEvent c args = (.ok (), calls)) :
    Exec c args = (.ok (), calls) ∧
    (∀ x ∈ calls, ∃ e, x = ClientCall.change e) ∧
    (∀ (js : String) (r : Bool),
      Exec c { args with JobStatus := js, ResolveIncident := r } = Exec c args) := by
  have hx := exec_change_mode c args hCC hRK
  refine ⟨?_, create_change_event_calls_change c args _ _ hok, ?_⟩
  · rw [hx]
    simp [changeBranch, hok]
  · intro js r
    have h2 := exec_change_mode c { args with JobStatus := js, ResolveIncident := r } hCC hRK
    rw [hx, h2]
    exact change_branch_frame c args js args.DedupKey args.IncidentSeverity r

/-- Witness for C6: a successful change event on a concrete input, with
the job status and resolve flag flipped arbitrarily afterwards. -/
theorem change_event_success_witness :
    Exec okClient changeModeEmptyArgs =
      (.ok (), [ClientCall.change { RoutingKey := "rk", Payload := { Summary := "", Source := "", CustomDetails := [] } }]) ∧
    Exec okClient { changeModeEmptyArgs with JobStatus := "FAILED", ResolveIncident := true } =
      Exec okClient changeModeEmptyArgs :=
  ⟨(change_event_success_returns_immediately okClient changeModeEmptyArgs _ rfl (by decide) rfl).1,
   (change_event_success_returns_immediately okClient changeModeEmptyArgs _ rfl (by decide) rfl).2.2 "FAILED" true⟩

/-- C7: a failing client call surfaces as a dispatch error that names the
failing operation and carries the client error text verbatim (the exact
wrapped strings are stated), the result is a failure, and the trace holds
exactly the one call — no retry, for each of the trigger, resolve and
change-event operations. -/
theorem client_failure_wrapped_single_call :
    (∀ (c : PagerDutyClient) (args : Args) (e : String),
      args.RoutingKey ≠ "" → args.CreateChangeEvent = false → args.DedupKey ≠ "" →
      args.JobStatus ≠ "" → args.IncidentSummary ≠ "" → args.IncidentSource ≠ "" →
      validateSeverity args.IncidentSeverity = none →
      (statusDecisionOf args).proceed = true →
      (statusDecisionOf args).resolveIncident = false →
      c.ManageEventWithContext (triggerEventOf (dispatchedArgs args)) = .error e →
      Exec c args =
        (.error ("failed to trigger incident: " ++ ("failed to trigger incident: " ++ e)),
         [ClientCall.manage (triggerEventOf (dispatchedArgs args))])) ∧
    (∀ (c : PagerDutyClient) (args : Args) (e : String),
      args.RoutingKey ≠ "" → args.CreateChangeEvent = false → args.DedupKey ≠ "" →
      args.JobStatus ≠ "" → args.IncidentSummary ≠ "" → args.IncidentSource ≠ "" →
      validateSeverity args.IncidentSeverity = none →
      (statusDecisionOf args).proceed = true →
      (statusDecisionOf args).resolveIncident = true →
      c.ManageEventWithContext (resolveEventOf (dispatchedArgs args)) = .error e →
      Exec c args =
        (.error ("failed to resolve incident: " ++ ("failed to resolve incident: " ++ e)),
         [ClientCall.manage (resolveEventOf (dispatchedArgs args))])) ∧
    (∀ (c : PagerDutyClient) (args a : Args) (e : String),
      args.CreateChangeEvent = true → args.RoutingKey ≠ "" →
      parsedChangeArgs args = .ok a →
      c.CreateChangeEventWithContext (changeEventOf a) = .error e →
      Exec c args =
        (.error ("failed to create change event: " ++ ("failed to create change event: " ++ e)),
         [ClientCall.change (changeEventOf a)])) := by
  refine ⟨?_, ?_, ?_⟩
  · intro c args e hRK hCC hDK hJS hSum hSrc hSev hP hR hM
    rw [exec_incident_mode c args hRK hCC hDK hJS hSum hSrc hSev]
    simp [incidentBranch, hP, hR, triggerIncidentAction, hM]
  · intro c args e hRK hCC hDK hJS hSum hSrc hSev hP hR hM
    rw [exec_incident_mode c args hRK hCC hDK hJS hSum hSrc hSev]
    simp [incidentBranch, hP, hR, resolveIncidentAction, hM]
  · intro c args a e hCC hRK hPar hM
    rw [exec_change_mode c args hCC hRK]
    simp [changeBranch, createChangeEvent, hPar, hM]

/-- Witness for C7: the transport error "API call failed" on each of the
three operations, at concrete inputs. -/
theorem client_failure_wrapped_witness :
    Exec (failManageClient "API call failed") upperFailedArgs =
      (.error "failed to trigger incident: failed to trigger incident: API call failed",
       [ClientCall.manage (triggerEventOf (dispatchedArgs upperFailedArgs))]) ∧
    Exec (failManageClient "API call failed") upperSuccessArgs =
      (.error "failed to resolve incident: failed to resolve incident: API call failed",
       [ClientCall.manage (resolveEventOf (dispatchedArgs upperSuccessArgs))]) ∧
    Exec (failChangeClient "API call failed") roundTripArgs =
      (.error "failed to create change event: failed to create change event: API call failed",
       [ClientCall.change (changeEventOf { roundTripArgs with CustomDetails := [("key1", JValue.str "value1")] })]) :=
  ⟨client_failure_wrapped_single_call.1 (failManageClient "API call failed") upperFailedArgs
      "API call failed" (by decide) rfl (by decide) (by decide) (by decide) (by decide) rfl rfl rfl rfl,
   client_failure_wrapped_single_call.2.1 (failManageClient "API call failed") upperSuccessArgs
      "API call failed" (by decide) rfl (by decide) (by decide) (by decide) (by decide) rfl rfl rfl rfl,
   client_failure_wrapped_single_call.2.2 (failChangeClient "API call failed") roundTripArgs
      _ "API call failed" rfl (by decide) rfl rfl⟩

/-- Counterexample to C8: the claim counts severity among the fields
derived (overwritten) from job status during dispatch.  Two inputs with
the same job status (FAILED) but different supplied severities produce
trigger payloads carrying exactly the supplied severities (info resp.
warning): the dispatch never overwrites severity, it passes it through. -/
theorem severity_passthrough_counterexample :
    Exec okClient sevInfoArgs =
      (.ok (), [ClientCall.manage
        { RoutingKey := "K", Action := "trigger",
          Payload := some { Summary := "Job failed: S", Source := "Src", Severity := "info" },
          DedupKey := "D" }]) ∧
    Exec okClient sevWarningArgs =
      (.ok (), [ClientCall.manage
        { RoutingKey := "K", Action := "trigger",
          Payload := some { Summary := "Job failed: S", Source := "Src", Severity := "warning" },
          DedupKey := "D" }]) ∧
    sevInfoArgs.JobStatus = sevWarningArgs.JobStatus ∧
    sevInfoArgs.IncidentSeverity = "info" ∧
    sevWarningArgs.IncidentSeverity = "warning" :=
  ⟨rfl, rfl, rfl, rfl, rfl⟩

/-- C8 as amended: after validation, the only argument field overwritten
during dispatch is the summary (the resolve decision being derived
alongside it); every other field — routing key, source, dedup key and
also the severity — reaches the client exactly as supplied.  The event
of the single dispatched call is stated field by field. -/
theorem dispatch_frame_only_summary_rewritten (c : PagerDutyClient) (args : Args)
    (hRK : args.RoutingKey ≠ "") (hCC : args.CreateChangeEvent = false)
    (hDK : args.DedupKey ≠ "") (hJS : args.JobStatus ≠ "")
    (hSum : args.IncidentSummary ≠ "") (hSrc : args.IncidentSource ≠ "")
    (hSev : validateSeverity args.IncidentSeverity = none)
    (hP : (statusDecisionOf args).proceed = true) :
    ((statusDecisionOf args).resolveIncident = false →
      (Exec c args).2 = [ClientCall.manage
        { RoutingKey := args.RoutingKey, Action := "trigger",
          Payload := some { Summary := (statusDecisionOf args).summary,
                            Source := args.IncidentSource,
                            Severity := args.IncidentSeverity },
          DedupKey := args.DedupKey }]) ∧
    ((statusDecisionOf args).resolveIncident = true →
      (Exec c args).2 = [ClientCall.manage
        { RoutingKey := args.RoutingKey, Action := "resolve",
          Payload := none,
          DedupKey := args.DedupKey }]) := by
  rw [exec_incident_mode c args hRK hCC hDK hJS hSum hSrc hSev]
  constructor
  · intro hR
    rcases hM : c.ManageEventWithContext (triggerEventOf (dispatchedArgs args)) with e | u <;>
      simp [triggerEventOf, dispatchedArgs] at hM <;>
      simp [incidentBranch, hP, hR, triggerIncidentAction, triggerEventOf, dispatchedArgs, hM]
  · intro hR
    rcases hM : c.ManageEventWithContext (resolveEventOf (dispatchedArgs args)) with e | u <;>
      simp [resolveEventOf, dispatchedArgs] at hM <;>
      simp [incidentBranch, hP, hR, resolveIncidentAction, resolveEventOf, dispatchedArgs, hM]

/-- Witness for the amended C8: on the FAILED/resolve-false input the
trigger event carries routing key, source, severity and dedup key as
supplied, with only the summary rewritten. -/
theorem dispatch_frame_witness :
    (Exec okClient upperFailedArgs).2 = [ClientCall.manage
      { RoutingKey := "K", Action := "trigger",
        Payload := some { Summary := (statusDecisionOf upperFailedArgs).summary,
                          Source := "Src", Severity := "critical" },
        DedupKey := "D" }] :=
  (dispatch_frame_only_summary_rewritten okClient upperFailedArgs
    (by decide) rfl (by decide) (by decide) (by decide) (by decide) rfl rfl).1 rfl

/-- C9: round-trip of custom details — in change-event mode with the
custom-details string holding the JSON object with key1 mapped to
value1, the mapping passed to the change-event client operation has
exactly that one entry, and the call succeeds. -/
theorem custom_details_round_trip :
    Exec okClient roundTripArgs =
      (.ok (), [ClientCall.change
        { RoutingKey := "testRoutingKey",
          Payload := { Summary := "Test change event summary",
                       Source := "Test source",
                       CustomDetails := [("key1", JValue.str "value1")] } }]) :=
  rfl

/-- C10: in change-event mode (flag set, routing key non-empty) the whole
observable outcome — the change event handed to the client and the
returned result — depends only on routing key, summary, source and the
custom-details data: varying job status, dedup key, severity and the
resolve flag arbitrarily leaves `Exec` unchanged. -/
theorem change_event_noninterference (c : PagerDutyClient) (args : Args)
    (js dk sev : String) (r : Bool)
    (hCC : args.CreateChangeEvent = true) (hRK : args.RoutingKey ≠ "") :
    Exec c { args with JobStatus := js, DedupKey := dk,
                       IncidentSeverity := sev, ResolveIncident := r }
      = Exec c args := by
  have h1 := exec_change_mode c
    { args with JobStatus := js, DedupKey := dk, IncidentSeverity := sev, ResolveIncident := r }
    hCC hRK
  rw [h1, exec_change_mode c args hCC hRK]
  exact change_branch_frame c args js dk sev r

/-- Witness for C10: flipping job status, dedup key, severity and the
resolve flag on the round-trip input leaves the outcome identical. -/
theorem change_event_noninterference_witness :
    Exec okClient { roundTripArgs with JobStatus := "FAILED", DedupKey := "D", IncidentSeverity := "bogus", ResolveIncident := true }
      = Exec okClient roundTripArgs :=
  change_event_noninterference okClient roundTripArgs "FAILED" "D" "bogus" true rfl (by decide)
